import Mathlib

/-!
Verification of the MiraiAI-Labs/mirai-ai frontend against its
natural-language specification.

The development shallowly embeds the TypeScript/React source:

* `src/frontend/app/roadmap/[role]/RoadmapClient.tsx` — the roadmap
  checklist component (checked-item map, completion percentage);
* `src/frontend/app/roadmap/[role]/page.tsx` — the server page
  (`getRoadmapData`, `RoadmapPage`) and the mock-interview client
  component (`MockInterview`: recording control, TTS configuration,
  welcome audio, upload of recorded audio).

JavaScript numbers are IEEE-754 binary64 doubles.  A finite double is
represented by its exact rational value, and every arithmetic result is
rounded with `fl`, an executable implementation of round-to-nearest,
ties-to-even at 53 bits of precision with gradual underflow and
overflow to infinity — so `(checkedCount / totalItems) * 100` is
computed exactly as the program computes it, including double-rounding
artefacts such as `(23 / 40) * 100 = 57.49999999999999` (not `57.5`).
The special values `NaN` and positive `Infinity` (type `JSNum`) cover
division by zero.  `Math.round` follows the ECMAScript specification:
the integer closest to the double's exact value, halves toward positive
infinity, i.e. `⌊x + 1/2⌋` on the exact value.
JavaScript objects used as string-keyed dictionaries are modelled as
association lists in insertion order: assigning to an existing key
updates it in place, assigning to a fresh key appends it.  Property
*reads*, however, also see the members every object literal inherits
from `Object.prototype` (`toString`, `constructor`, ...), which are
truthy non-strings — `lookupJs` distinguishes an own string entry, an
inherited member, and `undefined`.
-/

set_option exponentiation.threshold 4000
set_option maxRecDepth 16000

namespace Mirai

/-! ## JavaScript numbers -/

/-- A JavaScript number, idealised: an exact rational, `NaN`, or
positive `Infinity` (negative infinity never arises in this code). -/
inductive JSNum where
  | num (q : ℚ)
  | nan
  | inf
deriving DecidableEq, Repr

/-- Binary search for the binary exponent of a positive rational
`a / b`: the largest `E` in `[lo, hi)` with `b * 2 ^ E ≤ a * 2 ^ 1075`
(that is, `2 ^ (E - 1075) ≤ a / b`, exponents shifted by 1075 to stay
in `ℕ`).  The caller guarantees `cmp lo = true` and `cmp hi = false`;
the fuel is structural and 15 halvings cover the initial gap of 2099. -/
def findExpAux (cmp : ℕ → Bool) : ℕ → ℕ → ℕ → ℕ
  | 0, lo, _ => lo
  | fuel + 1, lo, hi =>
      if hi ≤ lo + 1 then lo
      else
        let mid := (lo + hi) / 2
        if cmp mid then findExpAux cmp fuel mid hi else findExpAux cmp fuel lo mid

/-- The integer nearest to `x / y` (`y > 0`), ties to even. -/
def nearestEvenDiv (x y : ℕ) : ℕ :=
  let q := x / y
  let r := x % y
  if 2 * r < y then q
  else if y < 2 * r then q + 1
  else if q % 2 = 0 then q else q + 1

/-- Round the non-negative rational `a / b` (`b > 0`) to the nearest
IEEE-754 binary64 value (round to nearest, ties to even): values below
half the least subnormal collapse to 0, values at or above `2 ^ 1024`
to `Infinity`; otherwise the exponent `E - 1075 = ⌊log2 (a/b)⌋` is
found by binary search, the quantum is `2 ^ (S - 1074)` with
`S = max (E - 53) 0` (so 53-bit significands for normal values and
fixed quantum `2 ^ (-1074)` for subnormal ones), the significand is the
nearest-even integer multiple of the quantum, and a significand that
rounds up to `2 ^ 1024` overflows to `Infinity`. -/
def flPos (a b : ℕ) : JSNum :=
  if a * 2 ^ 1075 < b then JSNum.num 0
  else if b * 2 ^ 1024 ≤ a then JSNum.inf
  else
    let E := findExpAux (fun E => decide (b * 2 ^ E ≤ a * 2 ^ 1075)) 15 0 2099
    let S := E - 53
    let p := if S ≤ 1074 then a * 2 ^ (1074 - S) else a
    let d := if S ≤ 1074 then b else b * 2 ^ (S - 1074)
    let m := nearestEvenDiv p d
    if 2 ^ (2098 - S) ≤ m then JSNum.inf
    else if 1074 ≤ S then JSNum.num ((m : ℚ) * ((2 ^ (S - 1074) : ℕ) : ℚ))
    else JSNum.num ((m : ℚ) / ((2 ^ (1074 - S) : ℕ) : ℚ))

/-- Round a non-negative rational to the nearest binary64 double (the
only values the percentage pipeline produces are non-negative). -/
def fl (q : ℚ) : JSNum :=
  flPos q.num.toNat q.den

/-- JavaScript division `a / b` of two non-negative integers held
exactly in doubles (the only division the roadmap component performs):
division by zero yields `NaN` for `0 / 0` and `Infinity` for positive
numerators; otherwise the correctly rounded binary64 quotient. -/
def jsDivNat (a b : ℕ) : JSNum :=
  if b = 0 then (if a = 0 then JSNum.nan else JSNum.inf)
  else fl ((a : ℚ) / (b : ℚ))

/-- JavaScript multiplication `x * 100` (100 is an exact double): the
correctly rounded binary64 product; the special values propagate. -/
def jsMul100 (x : JSNum) : JSNum :=
  match x with
  | JSNum.num q => fl (q * 100)
  | JSNum.nan => JSNum.nan
  | JSNum.inf => JSNum.inf

/-- Rounding to the nearest integer, halves toward positive infinity:
`⌊q + 1/2⌋`, written with the executable `Rat.floor`. -/
def roundNearest (q : ℚ) : ℤ :=
  (q + 1/2).floor

/-- `Math.round`: on finite numbers `⌊x + 1/2⌋`, and the special values
are propagated unchanged. -/
def jsRound (x : JSNum) : JSNum :=
  match x with
  | JSNum.num q => JSNum.num (roundNearest q)
  | JSNum.nan => JSNum.nan
  | JSNum.inf => JSNum.inf

/-! ## Roadmap data model (RoadmapClient.tsx) -/

/-- A resource link of a roadmap item (interface `Link`). -/
structure RoadmapLink where
  title : String
  url : String
  type : String
deriving DecidableEq, Repr

/-- A roadmap item (interface `RoadmapItem`). -/
structure RoadmapItem where
  title : String
  description : String
  links : List RoadmapLink
deriving DecidableEq, Repr

/-- The list `Object.values(roadmapData)` that `RoadmapClient` renders;
a roadmap document with its items in key-insertion order. -/
abbrev RoadmapItems := List RoadmapItem

/-- The `checkedItems` state of `RoadmapClient`: a JavaScript object
mapping item titles to booleans, as an association list in insertion
order. -/
abbrev CheckedItems := List (String × Bool)

/-- JavaScript property assignment `{ ...prev, [title]: checked }`: if
the key is present its value is updated in place (key order kept),
otherwise the pair is appended. -/
def setKey (s : CheckedItems) (t : String) (v : Bool) : CheckedItems :=
  if s.any (fun p => p.1 = t) then
    s.map (fun p => if p.1 = t then (t, v) else p)
  else
    s ++ [(t, v)]

/-- `handleCheckChange` of `RoadmapClient`:
`setCheckedItems(prev => ({ ...prev, [title]: checked }))`. -/
def handleCheckChange (s : CheckedItems) (title : String) (checked : Bool) : CheckedItems :=
  setKey s title checked

/-- `Object.values(checkedItems).filter(Boolean).length`: the number of
entries whose value is `true`. -/
def checkedCount (s : CheckedItems) : ℕ :=
  (s.filter (fun p => p.2)).length

/-- The completion percentage computed by the `useEffect` of
`RoadmapClient`: `Math.round((checkedCount / totalItems) * 100)` where
`totalItems = roadmapItems.length`. -/
def completionPercentage (items : RoadmapItems) (s : CheckedItems) : JSNum :=
  jsRound (jsMul100 (jsDivNat (checkedCount s) items.length))

/-- Checking a list of items one after another through the checkbox
handler, starting from a given `checkedItems` state. -/
def checkAll (s : CheckedItems) (titles : List String) : CheckedItems :=
  titles.foldl (fun acc t => handleCheckChange acc t true) s

/-- The lookup `checkedItems[title] || false` that decides whether an
item renders as checked. -/
def isChecked (s : CheckedItems) (title : String) : Bool :=
  match s.find? (fun p => p.1 = title) with
  | some p => p.2
  | none => false

/-- A 40-item roadmap document with pairwise-distinct titles, for
concrete evaluation of the percentage pipeline. -/
def doc40 : RoadmapItems :=
  (List.range 40).map (fun i => ⟨"topic-" ++ Nat.repr i, "", []⟩)

/-- The titles of the first 23 items of `doc40`. -/
def titles23 : List String :=
  (List.range 23).map (fun i => "topic-" ++ Nat.repr i)

/-! ## Roadmap page (page.tsx, server part) -/

/-- A roadmap document as stored on disk: a JSON object mapping keys to
roadmap items (interface `RoadmapData`), in key-insertion order. -/
abbrev RoadmapData := List (String × RoadmapItem)

/-- The literal `roleToFileMap` of `getRoadmapData`. -/
def roleToFileMap : List (String × String) :=
  [("data-scientist", "ai-ds.json"),
   ("frontend-developer", "frontend.json"),
   ("backend-developer", "backend.json"),
   ("fullstack-developer", "full-stack.json"),
   ("devops-engineer", "devops.json"),
   ("qa-engineer", "qa.json"),
   ("product-manager", "product-manager.json"),
   ("ui-ux-designer", "ux-design.json"),
   ("data-analyst", "data-analyst.json")]

/-- What a JavaScript property read on a plain string-valued object can
produce: an own string entry, a truthy non-string member inherited from
`Object.prototype`, or `undefined`. -/
inductive JsProp where
  | str (s : String)
  | inherited
  | undef
deriving DecidableEq, Repr

/-- The member names every object literal inherits from
`Object.prototype`; reading one of them on `roleToFileMap` yields a
truthy function (or, for `__proto__`, an object), not `undefined`. -/
def objectPrototypeMembers : List String :=
  ["constructor", "hasOwnProperty", "isPrototypeOf", "propertyIsEnumerable",
   "toLocaleString", "toString", "valueOf", "__proto__", "__defineGetter__",
   "__defineSetter__", "__lookupGetter__", "__lookupSetter__"]

/-- JavaScript object indexing `roleToFileMap[role]`: the value of the
first matching own key; failing that, property lookup continues on the
prototype chain, so a name of an `Object.prototype` member yields that
inherited (truthy, non-string) member, and only other names yield
`undefined`. -/
def lookupJs (m : List (String × String)) (k : String) : JsProp :=
  match m.find? (fun p => p.1 = k) with
  | some p => JsProp.str p.2
  | none => if k ∈ objectPrototypeMembers then JsProp.inherited else JsProp.undef

/-- The file system and JSON parser seen by `getRoadmapData`: reading
and parsing a file may throw (`Except.error`, a thrown exception) or
produce a parsed document; `none` stands for a parse result that is
JavaScript-falsy (e.g. `null`). -/
abbrev FileReader := String → Except String (Option RoadmapData)

/-- The function `getRoadmapData` of page.tsx: look the role up in
`roleToFileMap`; `undefined` (and the falsy empty string) fail the
`if (!fileName)` guard and return `null` without touching the file
system; a truthy inherited `Object.prototype` member passes the guard
and is handed to `path.join`, which throws on a non-string argument;
otherwise read and parse the named file (which may throw). -/
def getRoadmapData (fsRead : FileReader) (role : String) :
    Except String (Option RoadmapData) :=
  match lookupJs roleToFileMap role with
  | JsProp.undef => Except.ok none
  | JsProp.inherited =>
      Except.error "TypeError [ERR_INVALID_ARG_TYPE]: path.join received a non-string"
  | JsProp.str fileName =>
      if fileName = "" then Except.ok none else fsRead fileName

/-- The possible outcomes of rendering `RoadmapPage`. -/
inductive PageResult where
  | notFound
  | render (data : RoadmapData) (role : String)
  | crash (msg : String)
deriving DecidableEq, Repr

/-- The component `RoadmapPage` of page.tsx: calls `getRoadmapData`; a
falsy result triggers `notFound()`, otherwise the client component is
rendered; an uncaught exception would crash the page. -/
def RoadmapPage (fsRead : FileReader) (role : String) : PageResult :=
  match getRoadmapData fsRead role with
  | Except.error e => PageResult.crash e
  | Except.ok none => PageResult.notFound
  | Except.ok (some data) => PageResult.render data role

/-- A file reader whose every file is missing (reads throw), for
concrete instantiations. -/
def emptyFs : FileReader := fun f => Except.error ("ENOENT: " ++ f)

/-! ## Mock interview session (page.tsx, MockInterview component) -/

/-- The scoring object optionally attached to a reply (interface
`AIResponse.skor`). -/
structure Skor where
  motivasi : ℤ
  technical_skills : ℤ
  pengalaman_proyek : ℤ
  pemecahan_masalah : ℤ
  kecocokan_budaya : ℤ
deriving DecidableEq, Repr

/-- The JSON body of a successful `/speak` response, as the component
uses it: `transcription`, `ai_response`, `audio_url`, and the optional
evaluation fields (interface `AIResponse` plus the two fields read
directly off `jsonResponse`). -/
structure SpeakResponse where
  status : String
  skor : Option Skor
  evaluasi_terperinci : Option String
  ai_response : String
  transcription : String
  audio_url : String
deriving DecidableEq, Repr

/-- The outcome of the `fetch` in `sendAudioToBackend`: a response with
`response.ok` true, a response with a non-success HTTP status, or a
network failure (the `catch` branch). -/
inductive UploadOutcome where
  | ok (resp : SpeakResponse)
  | httpError (status : ℕ)
  | netError (msg : String)
deriving DecidableEq, Repr

/-- Side effects the component requests from the browser. -/
inductive Effect where
  | play (url : String)
  | stopRecorder (id : ℕ)
deriving DecidableEq, Repr

/-- The outcome of a `navigator.mediaDevices.getUserMedia` call made by
`startRecording`: access granted, or an error with a message.  The
outcome is fixed when the call is issued and delivered when its promise
settles. -/
inductive MicOutcome where
  | granted
  | denied (msg : String)
deriving DecidableEq, Repr

/-- The state of the `MockInterview` component: one field per `useState`
hook, plus environment (ghost) fields — `pendingMics`, the `getUserMedia`
calls issued by `startRecording` whose `await` has not yet resumed (the
source suspends there with the Start button still enabled);
`activeRecorders`, the `MediaRecorder` objects created and not yet
stopped; and `nextId`, a supply of fresh recorder identities. -/
structure SessionState where
  audioStream : Option ℕ
  recorder : Option ℕ
  transcription : String
  aiResponse : Option SpeakResponse
  audioError : String
  isPlaying : Bool
  selectedMic : String
  isStartButtonDisabled : Bool
  ttsService : String
  pendingMics : List MicOutcome
  activeRecorders : List ℕ
  nextId : ℕ
deriving DecidableEq, Repr

/-- The initial component state: every `useState` default of
`MockInterview` (`recorder = null`, `isStartButtonDisabled = true`,
empty strings), no acquisition pending and no recorder created yet. -/
def initState : SessionState :=
  { audioStream := none
    recorder := none
    transcription := ""
    aiResponse := none
    audioError := ""
    isPlaying := false
    selectedMic := ""
    isStartButtonDisabled := true
    ttsService := ""
    pendingMics := []
    activeRecorders := []
    nextId := 0 }

/-- The function `stopRecording` of `MockInterview`: if a recorder is
present, stop it (which later fires `onstop` and the upload) and clear
the `recorder` state; otherwise do nothing. -/
def stopRecording (s : SessionState) : SessionState × List Effect :=
  match s.recorder with
  | some r =>
      ({ s with recorder := none, activeRecorders := s.activeRecorders.erase r },
       [Effect.stopRecorder r])
  | none => (s, [])

/-- The prefix of `startRecording` that runs synchronously in the click
handler: it calls `getUserMedia` and suspends at `await`, leaving the
component state untouched — in particular `recorder` is still `null`
and nothing disables the Start button while the call is pending. -/
def startRecordingCall (outcome : MicOutcome) (s : SessionState) : SessionState :=
  { s with pendingMics := s.pendingMics ++ [outcome] }

/-- The continuation of `startRecording` after its `await getUserMedia`
settles (calls resume in issue order): on granted access it stores the
stream, creates a fresh `MediaRecorder`, stores it in the `recorder`
state — overwriting, not stopping, whatever handle was there — and
starts it; on denial it only sets the error message.  With no pending
call no continuation exists, so the event is dropped. -/
def startRecordingResume (s : SessionState) : SessionState :=
  match s.pendingMics with
  | [] => s
  | MicOutcome.granted :: rest =>
      { s with pendingMics := rest
               audioStream := some s.nextId
               recorder := some s.nextId
               activeRecorders := s.activeRecorders ++ [s.nextId]
               nextId := s.nextId + 1 }
  | MicOutcome.denied msg :: rest =>
      { s with pendingMics := rest
               audioError := "Error accessing microphone: " ++ msg }

/-- The function `sendAudioToBackend` of `MockInterview`, as a state
transformer on the component state given the outcome of the upload:
on `response.ok` it stores the transcription, stores the whole JSON
response in `aiResponse`, starts playback of
`NEXT_PUBLIC_API_URL + jsonResponse.audio_url` and sets `isPlaying`;
on a non-success status or a network error it only sets `audioError`. -/
def sendAudioToBackend (apiBase : String) (r : UploadOutcome) (s : SessionState) :
    SessionState × List Effect :=
  match r with
  | UploadOutcome.ok resp =>
      ({ s with transcription := resp.transcription
                aiResponse := some resp
                isPlaying := true },
       [Effect.play (apiBase ++ resp.audio_url)])
  | UploadOutcome.httpError status =>
      ({ s with audioError := "Server error: " ++ toString status }, [])
  | UploadOutcome.netError msg =>
      ({ s with audioError := "Error sending audio to backend: " ++ msg }, [])

/-- The reply text the UI shows when an `aiResponse` is present (the
component renders `aiResponse.ai_response`). -/
def shownReply (s : SessionState) : Option String :=
  s.aiResponse.map (fun r => r.ai_response)

/-- The events that drive the `MockInterview` component: resolutions of
the `/config` fetch, the welcome-audio callbacks (`play()` rejection,
`onplay`, `onended`), device enumeration, a click of the single
recording button (carrying the eventual outcome of the `getUserMedia`
call it issues when it starts a recording), the settling of the oldest
pending `getUserMedia` call, the resolution of an upload, and the end
of reply playback. -/
inductive Event where
  | configOk (tts : String)
  | configFail
  | welcomePlay
  | welcomePlayFail
  | welcomeEnded
  | micsOk (ids : List String)
  | micsFail (msg : String)
  | clickButton (mic : MicOutcome)
  | micResolved
  | uploadResult (r : UploadOutcome)
  | replyEnded
deriving DecidableEq, Repr

/-- One step of the `MockInterview` component.  Events whose triggering
condition does not hold in the current state are dropped: the welcome
audio object exists only once a non-empty `ttsService` arrived, a click
on the recording button does nothing while the button is rendered
`disabled` (`!recorder && isStartButtonDisabled`), and a `getUserMedia`
settlement without a pending call does not occur.  A click dispatches
`recorder ? stopRecording : startRecording` exactly as the button's
`onClick` does, and `startRecording` only issues the `getUserMedia`
call before suspending at `await`; its body after the `await` runs at
`micResolved`. -/
def step (apiBase : String) (s : SessionState) (e : Event) : SessionState :=
  match e with
  | Event.configOk tts => { s with ttsService := tts }
  | Event.configFail => s
  | Event.welcomePlay =>
      if s.ttsService = "" then s
      else { s with isPlaying := true, isStartButtonDisabled := true }
  | Event.welcomePlayFail =>
      if s.ttsService = "" then s
      else { s with audioError := "Failed to play welcoming audio." }
  | Event.welcomeEnded =>
      if s.ttsService = "" then s
      else { s with isPlaying := false, isStartButtonDisabled := false }
  | Event.micsOk ids =>
      match ids with
      | [] => s
      | id :: _ => { s with selectedMic := id }
  | Event.micsFail msg =>
      { s with audioError := "Error enumerating devices: " ++ msg }
  | Event.clickButton mic =>
      match s.recorder with
      | some _ => (stopRecording s).1
      | none =>
          if s.isStartButtonDisabled then s else startRecordingCall mic s
  | Event.micResolved => startRecordingResume s
  | Event.uploadResult r => (sendAudioToBackend apiBase r s).1
  | Event.replyEnded => { s with isPlaying := false }

/-- Running the component from its initial state through a sequence of
events. -/
def run (apiBase : String) (events : List Event) : SessionState :=
  events.foldl (step apiBase) initState

/-! ## Welcome audio selection (MockInterview welcome effect) -/

/-- The `welcomeAudioUrl` computed by the welcome `useEffect` of
`MockInterview`: a nested conditional on `interviewType === "tech"` and
`ttsService === "openai"` over four template literals. -/
def welcomeAudioUrl (baseUrl interviewType ttsService : String) : String :=
  if interviewType = "tech" then
    if ttsService = "openai" then
      baseUrl ++ "/static/welcoming/welcoming-tech-alloy.wav"
    else
      baseUrl ++ "/static/welcoming/welcoming-tech-zephlyn.wav"
  else
    if ttsService = "openai" then
      baseUrl ++ "/static/welcoming/welcoming-alloy.wav"
    else
      baseUrl ++ "/static/welcoming/welcoming-zephlyn.wav"

/-- The greeting file name as the specification describes the selection:
interview type (technical vs HR) crossed with the TTS provider name
gives one of four fixed file names.  Stated from the spec's words, to
be compared with `welcomeAudioUrl` (which is translated from the
source). -/
def specGreetingFile (interviewType ttsService : String) : String :=
  if interviewType = "tech" then
    if ttsService = "openai" then "welcoming-tech-alloy.wav"
    else "welcoming-tech-zephlyn.wav"
  else
    if ttsService = "openai" then "welcoming-alloy.wav"
    else "welcoming-zephlyn.wav"

end Mirai

namespace Mirai

/-! ### Basic lemmas about the checklist state -/

theorem setKey_not_mem (s : CheckedItems) (t : String) (v : Bool)
    (h : s.any (fun p => p.1 = t) = false) : setKey s t v = s ++ [(t, v)] := by
  simp [setKey, h]

theorem checkAll_fresh (titles : List String) :
    ∀ s : CheckedItems, titles.Nodup →
      (∀ u ∈ titles, s.any (fun p => p.1 = u) = false) →
      checkAll s titles = s ++ titles.map (fun t => (t, true)) := by
  induction titles with
  | nil => intro s _ _; simp [checkAll]
  | cons t ts ih =>
    intro s hnd hfresh
    have ht : s.any (fun p => p.1 = t) = false := hfresh t (by simp)
    have hstep : handleCheckChange s t true = s ++ [(t, true)] :=
      setKey_not_mem s t true ht
    have hnd' : ts.Nodup := (List.nodup_cons.mp hnd).2
    have htnot : t ∉ ts := (List.nodup_cons.mp hnd).1
    have hfresh' : ∀ u ∈ ts, (s ++ [(t, true)]).any (fun p => p.1 = u) = false := by
      intro u hu
      have h1 : s.any (fun p => p.1 = u) = false := hfresh u (by simp [hu])
      have h2 : t ≠ u := fun h => htnot (h ▸ hu)
      simp [List.any_append, h1, h2]
    calc checkAll s (t :: ts)
        = checkAll (s ++ [(t, true)]) ts := by
          show checkAll (handleCheckChange s t true) ts = _
          rw [hstep]
      _ = (s ++ [(t, true)]) ++ ts.map (fun u => (u, true)) := ih _ hnd' hfresh'
      _ = s ++ (t :: ts).map (fun u => (u, true)) := by simp

theorem checkedCount_map_true (titles : List String) :
    checkedCount (titles.map (fun t => (t, true))) = titles.length := by
  induction titles with
  | nil => rfl
  | cons t ts ih => simp [checkedCount, List.filter] at ih ⊢; exact ih

theorem roundNearest_eq_floor (q : ℚ) : roundNearest q = ⌊q + 1/2⌋ := by
  rw [roundNearest, Rat.floor_def', ← Rat.floor_def]

theorem checkedCount_map_preserves (s : CheckedItems)
    (f : String × Bool → String × Bool) (h : ∀ p ∈ s, (f p).2 = p.2) :
    checkedCount (s.map f) = checkedCount s := by
  simp only [checkedCount, ← List.countP_eq_length_filter, List.countP_map]
  exact List.countP_congr (fun p hp => by simp [Function.comp, h p hp])

theorem checkedCount_append_false (s : CheckedItems) (t : String) :
    checkedCount (s ++ [(t, false)]) = checkedCount s := by
  simp [checkedCount, List.filter_append]

theorem setKey_setKey (s : CheckedItems) (t : String) (v w : Bool) :
    setKey (setKey s t v) t w = setKey s t w := by
  by_cases hs : s.any (fun p => p.1 = t)
  · have hmap : (s.map (fun p => if p.1 = t then (t, v) else p)).any
        (fun p => p.1 = t) = true := by
      rw [List.any_map]
      rw [List.any_eq_true] at hs ⊢
      obtain ⟨p, hp, hpt⟩ := hs
      exact ⟨p, hp, by simp_all [Function.comp]⟩
    simp only [setKey, hs, if_true, hmap, List.map_map]
    refine congrArg (fun f => s.map f) (funext fun p => ?_)
    by_cases hpt : p.1 = t <;> simp [Function.comp, hpt]
  · have hs' : s.any (fun p => p.1 = t) = false := by rwa [Bool.not_eq_true] at hs
    have hnone : ∀ p ∈ s, p.1 ≠ t := by
      intro p hp
      rw [List.any_eq_false] at hs'
      simpa using hs' p hp
    rw [setKey_not_mem s t v hs', setKey_not_mem s t w hs']
    have happ : ((s ++ [(t, v)]).any (fun p => p.1 = t)) = true := by
      simp [List.any_append]
    have hmap_id : s.map (fun p => if p.1 = t then (t, w) else p) = s := by
      conv_rhs => rw [← List.map_id s]
      exact List.map_congr_left (fun p hp => by simp [hnone p hp])
    simp [setKey, happ, hmap_id]

theorem checkedCount_setKey_false (s : CheckedItems) (t : String)
    (h : ∀ p ∈ s, p.1 = t → p.2 = false) :
    checkedCount (setKey s t false) = checkedCount s := by
  by_cases hs : s.any (fun p => p.1 = t)
  · simp only [setKey, hs, if_true]
    refine checkedCount_map_preserves s _ (fun p hp => ?_)
    by_cases hpt : p.1 = t
    · simp [hpt, h p hp hpt]
    · simp [hpt]
  · have hs' : s.any (fun p => p.1 = t) = false := by rwa [Bool.not_eq_true] at hs
    rw [setKey_not_mem s t false hs']
    exact checkedCount_append_false s t

/-! ## Claim theorems -/

/-- C1 counterexample: checking 23 of 40 distinctly titled items makes
the program compute `(23/40)*100` in binary64, which rounds twice to
`57.49999999999999289...`, and `Math.round` of that is 57 — while the
claimed `round(100 * 23 / 40) = round(57.5)` is 58.  The claim as
stated is therefore false of the code. -/
theorem claim1_counterexample :
    completionPercentage doc40 (checkAll [] titles23) = JSNum.num 57
    ∧ roundNearest ((100 : ℚ) * 23 / 40) = 58
    ∧ completionPercentage doc40 (checkAll [] titles23)
        ≠ JSNum.num (roundNearest
            (100 * (titles23.length : ℚ) / (doc40.length : ℚ))) := by
  refine ⟨?_, ?_, ?_⟩ <;> with_unfolding_all decide

/-- C1 amended: for every roadmap document with `N > 0` items whose
titles are pairwise distinct, after checking exactly `k` of those items
(starting from the fresh, all-unchecked state) the completion
percentage displayed by `RoadmapClient` equals `Math.round` of the
binary64 evaluation of `(k / N) * 100` — which agrees with
`round(100 * k / N)` whenever the rounded quotient does not cross a
half-integer, but not always (at `k = 23, N = 40` the code shows 57,
the exact rounding 58). -/
theorem claim1_completion_percentage (doc : RoadmapItems) (ts : List String)
    (_hN : doc ≠ []) (_hdoc : (doc.map RoadmapItem.title).Nodup)
    (hts : ts.Nodup) (_hsub : ∀ t ∈ ts, t ∈ doc.map RoadmapItem.title) :
    completionPercentage doc (checkAll [] ts)
      = jsRound (jsMul100 (jsDivNat ts.length doc.length)) := by
  have hfresh : ∀ u ∈ ts, ([] : CheckedItems).any (fun p => p.1 = u) = false := by
    intro u _; rfl
  have hstate : checkAll [] ts = ts.map (fun t => (t, true)) := by
    rw [checkAll_fresh ts [] hts hfresh]; rfl
  have hcount : checkedCount (checkAll [] ts) = ts.length := by
    rw [hstate]; exact checkedCount_map_true ts
  rw [completionPercentage, hcount]

/-- C1 witness: a two-item document with distinct titles, checking one
item yields 50 percent (both quotient and product are exact doubles
here). -/
theorem claim1_witness :
    (([⟨"A", "", []⟩, ⟨"B", "", []⟩] : RoadmapItems) ≠ []
      ∧ (([⟨"A", "", []⟩, ⟨"B", "", []⟩] : RoadmapItems).map RoadmapItem.title).Nodup
      ∧ (["A"] : List String).Nodup
      ∧ ∀ t ∈ (["A"] : List String),
          t ∈ (([⟨"A", "", []⟩, ⟨"B", "", []⟩] : RoadmapItems).map RoadmapItem.title))
    ∧ completionPercentage [⟨"A", "", []⟩, ⟨"B", "", []⟩] (checkAll [] ["A"])
        = jsRound (jsMul100 (jsDivNat 1 2))
    ∧ completionPercentage [⟨"A", "", []⟩, ⟨"B", "", []⟩] (checkAll [] ["A"])
        = JSNum.num 50 := by
  refine ⟨⟨by decide, by decide, by decide, by decide⟩, ?_, ?_⟩
  · exact claim1_completion_percentage [⟨"A", "", []⟩, ⟨"B", "", []⟩] ["A"]
      (by decide) (by decide) (by decide) (by decide)
  · with_unfolding_all rfl

/-- C2: on a roadmap document with zero items and nothing checked, the
completion computation of `RoadmapClient` evaluates
`Math.round((0 / 0) * 100)`, which is `NaN` — an undefined result of a
division by zero, not a defined fallback such as 0 percent.  This
contradicts the claim; the code lacks the explicit `totalCount = 0`
guard the specification demands. -/
theorem claim2_empty_doc_nan :
    completionPercentage ([] : RoadmapItems) ([] : CheckedItems) = JSNum.nan
      ∧ JSNum.nan ≠ JSNum.num 0 := by
  exact ⟨by decide, by decide⟩

/-- C6 counterexample: with a one-item document and that item already
checked, the completion percentage is 100; checking it again and then
unchecking it leaves the percentage at 0, not at its prior value.  The
claim as stated (over every prior checklist state) is therefore
false. -/
theorem claim6_counterexample :
    completionPercentage [⟨"A", "", []⟩]
        (handleCheckChange (handleCheckChange [("A", true)] "A" true) "A" false)
      ≠ completionPercentage [⟨"A", "", []⟩] [("A", true)] := by
  with_unfolding_all decide

/-- C6 amended: for every roadmap document and every prior checklist
state in which the given item is not checked (every entry for its title
is `false`), checking then unchecking that item returns the completion
percentage to its prior value. -/
theorem claim6_check_uncheck_restores (doc : RoadmapItems) (s : CheckedItems)
    (t : String) (h : ∀ p ∈ s, p.1 = t → p.2 = false) :
    completionPercentage doc
        (handleCheckChange (handleCheckChange s t true) t false)
      = completionPercentage doc s := by
  have hstate : handleCheckChange (handleCheckChange s t true) t false
      = setKey s t false := setKey_setKey s t true false
  have hcount : checkedCount (setKey s t false) = checkedCount s :=
    checkedCount_setKey_false s t h
  simp [handleCheckChange] at hstate
  simp [completionPercentage, handleCheckChange, hstate, hcount]

/-- C6 witness: in a one-item document with the item unchecked, checking
then unchecking it restores the percentage. -/
theorem claim6_witness :
    (∀ p ∈ ([("A", false)] : CheckedItems), p.1 = "A" → p.2 = false)
    ∧ completionPercentage [⟨"A", "", []⟩]
        (handleCheckChange (handleCheckChange [("A", false)] "A" true) "A" false)
      = completionPercentage [⟨"A", "", []⟩] [("A", false)] := by
  exact ⟨by decide,
    claim6_check_uncheck_restores [⟨"A", "", []⟩] [("A", false)] "A" (by decide)⟩

/-- C4 counterexample: the role "toString" is not a key of
`roleToFileMap`, yet `roleToFileMap["toString"]` is the truthy function
inherited from `Object.prototype`, so the `if (!fileName)` guard is
skipped, `path.join` throws on the non-string, and the page crashes
instead of yielding not-found — the claim's "never a crash" is false
for this unmapped role. -/
theorem claim4_counterexample :
    (∀ p ∈ roleToFileMap, p.1 ≠ "toString")
    ∧ getRoadmapData emptyFs "toString"
        = Except.error "TypeError [ERR_INVALID_ARG_TYPE]: path.join received a non-string"
    ∧ RoadmapPage emptyFs "toString"
        = PageResult.crash
            "TypeError [ERR_INVALID_ARG_TYPE]: path.join received a non-string" := by
  refine ⟨by decide, by rfl, by rfl⟩

/-- C4 amended: for every role identifier that is neither a key of
`roleToFileMap` nor the name of a member object literals inherit from
`Object.prototype`, `getRoadmapData` returns `null` without touching
the file system and `RoadmapPage` then invokes `notFound` — never a
crash, whatever the file system would have done.  (For inherited names
such as "toString" the lookup is truthy and `path.join` throws, so the
page crashes.) -/
theorem claim4_unknown_role_not_found (fsRead : FileReader) (role : String)
    (hk : ∀ p ∈ roleToFileMap, p.1 ≠ role)
    (hp : role ∉ objectPrototypeMembers) :
    getRoadmapData fsRead role = Except.ok none
      ∧ RoadmapPage fsRead role = PageResult.notFound := by
  have hfind : roleToFileMap.find? (fun p => p.1 = role) = none := by
    rw [List.find?_eq_none]
    intro p hpm
    simp [hk p hpm]
  have hlook : lookupJs roleToFileMap role = JsProp.undef := by
    simp [lookupJs, hfind, hp]
  constructor
  · simp [getRoadmapData, hlook]
  · simp [RoadmapPage, getRoadmapData, hlook]

/-- C4 witness: the role "ml-engineer" is neither mapped nor inherited;
the page yields not-found even over a file system on which every read
throws. -/
theorem claim4_witness :
    (∀ p ∈ roleToFileMap, p.1 ≠ "ml-engineer")
    ∧ "ml-engineer" ∉ objectPrototypeMembers
    ∧ getRoadmapData emptyFs "ml-engineer" = Except.ok none
    ∧ RoadmapPage emptyFs "ml-engineer" = PageResult.notFound := by
  refine ⟨by decide, by decide, ?_⟩
  have h := claim4_unknown_role_not_found emptyFs "ml-engineer" (by decide) (by decide)
  exact ⟨h.1, h.2⟩

/-- C3: every response of `sendAudioToBackend` with a non-success HTTP
status leaves the transcription state and the AI-reply state unchanged,
requests no playback, and sets the error-message state to a non-empty
string (`Server error: <status>`). -/
theorem claim3_http_error_preserves_state (apiBase : String) (status : ℕ)
    (s : SessionState) :
    (sendAudioToBackend apiBase (UploadOutcome.httpError status) s).1.transcription
        = s.transcription
    ∧ (sendAudioToBackend apiBase (UploadOutcome.httpError status) s).1.aiResponse
        = s.aiResponse
    ∧ (sendAudioToBackend apiBase (UploadOutcome.httpError status) s).2 = []
    ∧ (sendAudioToBackend apiBase (UploadOutcome.httpError status) s).1.audioError
        ≠ "" := by
  refine ⟨rfl, rfl, rfl, ?_⟩
  intro h
  have h2 : ("Server error: " ++ toString status) = "" := h
  have hlen := congrArg String.length h2
  rw [String.length_append] at hlen
  have h14 : ("Server error: ").length = 14 := by decide
  simp [h14] at hlen

/-- C7: the welcome-greeting URL is the API base followed by
`/static/welcoming/` and exactly the file the specification names for
each of the four crossings of interview type ("tech" vs anything else)
with TTS provider ("openai" vs anything else). -/
theorem claim7_welcome_audio_selection (baseUrl interviewType ttsService : String) :
    welcomeAudioUrl baseUrl interviewType ttsService
      = baseUrl ++ "/static/welcoming/" ++ specGreetingFile interviewType ttsService := by
  by_cases h1 : interviewType = "tech" <;> by_cases h2 : ttsService = "openai" <;>
    simp only [welcomeAudioUrl, specGreetingFile, h1, h2, if_true, if_false] <;>
    (rw [String.append_assoc]; exact congrArg (fun x => baseUrl ++ x) (by decide))

/-- C8: on every successful upload response, `sendAudioToBackend` sets
the transcription state to the response's `transcription` field, stores
the response so that the reply shown equals its `ai_response` field,
marks playback active, and requests playback of the API base
concatenated with the response's `audio_url`. -/
theorem claim8_success_updates_and_plays (apiBase : String) (resp : SpeakResponse)
    (s : SessionState) :
    (sendAudioToBackend apiBase (UploadOutcome.ok resp) s).1.transcription
        = resp.transcription
    ∧ shownReply (sendAudioToBackend apiBase (UploadOutcome.ok resp) s).1
        = some resp.ai_response
    ∧ (sendAudioToBackend apiBase (UploadOutcome.ok resp) s).1.isPlaying = true
    ∧ (sendAudioToBackend apiBase (UploadOutcome.ok resp) s).2
        = [Effect.play (apiBase ++ resp.audio_url)] := by
  exact ⟨rfl, rfl, rfl, rfl⟩

/-- C10: calling `stopRecording` when no recording handle is active
(the `recorder` state is `null`) is a no-op: it triggers no upload or
other effect and returns the session state — every field — unchanged. -/
theorem claim10_stop_noop (s : SessionState) (h : s.recorder = none) :
    stopRecording s = (s, []) := by
  simp [stopRecording, h]

/-- C10 witness: stopping in the initial state, where no recorder
exists, changes nothing. -/
theorem claim10_witness :
    initState.recorder = none ∧ stopRecording initState = (initState, []) :=
  ⟨rfl, claim10_stop_noop initState rfl⟩

/-- C5: contrary to the claim, the interface can start a second
recording.  `startRecording` suspends at `await getUserMedia` with the
Start button still enabled (`recorder` is still `null` and
`isStartButtonDisabled` already `false`), so a second click issues a
second acquisition; when both settle, two `MediaRecorder`s are created
and started and the first handle is overwritten — two recording
handles are active at once, the first orphaned and unstoppable. -/
theorem claim5_double_click_two_recorders :
    (run "http://api" [Event.configOk "openai", Event.welcomePlay,
        Event.welcomeEnded, Event.clickButton MicOutcome.granted,
        Event.clickButton MicOutcome.granted, Event.micResolved,
        Event.micResolved]).activeRecorders = [0, 1]
    ∧ ¬ (run "http://api" [Event.configOk "openai", Event.welcomePlay,
        Event.welcomeEnded, Event.clickButton MicOutcome.granted,
        Event.clickButton MicOutcome.granted, Event.micResolved,
        Event.micResolved]).activeRecorders.length ≤ 1
    ∧ (run "http://api" [Event.configOk "openai", Event.welcomePlay,
        Event.welcomeEnded, Event.clickButton MicOutcome.granted,
        Event.clickButton MicOutcome.granted, Event.micResolved,
        Event.micResolved]).recorder = some 1 := by
  refine ⟨by decide, by decide, by decide⟩

/-- C3 witness: a 500 response in the initial state keeps transcription
and reply and sets a non-empty error. -/
theorem claim3_witness :
    (sendAudioToBackend "http://api" (UploadOutcome.httpError 500) initState).1.transcription
        = initState.transcription
    ∧ (sendAudioToBackend "http://api" (UploadOutcome.httpError 500) initState).1.aiResponse
        = initState.aiResponse
    ∧ (sendAudioToBackend "http://api" (UploadOutcome.httpError 500) initState).2 = []
    ∧ (sendAudioToBackend "http://api" (UploadOutcome.httpError 500) initState).1.audioError
        ≠ "" :=
  claim3_http_error_preserves_state "http://api" 500 initState

theorem step_blocked_no_tts (apiBase : String) (s : SessionState) (e : Event)
    (he : ∀ tts, e = Event.configOk tts → tts = "")
    (h1 : s.ttsService = "") (h2 : s.isStartButtonDisabled = true)
    (h3 : s.recorder = none) (h4 : s.activeRecorders = [])
    (h5 : s.pendingMics = []) :
    (step apiBase s e).ttsService = ""
    ∧ (step apiBase s e).isStartButtonDisabled = true
    ∧ (step apiBase s e).recorder = none
    ∧ (step apiBase s e).activeRecorders = []
    ∧ (step apiBase s e).pendingMics = [] := by
  cases e with
  | configOk tts =>
      have htts := he tts rfl
      simp [step, htts, h1, h2, h3, h4, h5]
  | configFail => simp [step, h1, h2, h3, h4, h5]
  | welcomePlay => simp [step, h1, h2, h3, h4, h5]
  | welcomePlayFail => simp [step, h1, h2, h3, h4, h5]
  | welcomeEnded => simp [step, h1, h2, h3, h4, h5]
  | micsOk ids => cases ids <;> simp [step, h1, h2, h3, h4, h5]
  | micsFail msg => simp [step, h1, h2, h3, h4, h5]
  | clickButton mic => simp [step, h3, h2, h1, h4, h5]
  | micResolved => simp [step, startRecordingResume, h5, h1, h2, h3, h4]
  | uploadResult r => cases r <;> simp [step, sendAudioToBackend, h1, h2, h3, h4, h5]
  | replyEnded => simp [step, h1, h2, h3, h4, h5]

theorem foldl_blocked_no_tts (apiBase : String) (events : List Event) :
    ∀ s : SessionState, (∀ tts, Event.configOk tts ∈ events → tts = "") →
      s.ttsService = "" → s.isStartButtonDisabled = true →
      s.recorder = none → s.activeRecorders = [] → s.pendingMics = [] →
      (events.foldl (step apiBase) s).ttsService = ""
      ∧ (events.foldl (step apiBase) s).isStartButtonDisabled = true
      ∧ (events.foldl (step apiBase) s).recorder = none
      ∧ (events.foldl (step apiBase) s).activeRecorders = []
      ∧ (events.foldl (step apiBase) s).pendingMics = [] := by
  induction events with
  | nil => intro s _ h1 h2 h3 h4 h5; exact ⟨h1, h2, h3, h4, h5⟩
  | cons e es ih =>
      intro s hevs h1 h2 h3 h4 h5
      have he : ∀ tts, e = Event.configOk tts → tts = "" := by
        intro tts het; exact hevs tts (by simp [het])
      obtain ⟨k1, k2, k3, k4, k5⟩ := step_blocked_no_tts apiBase s e he h1 h2 h3 h4 h5
      exact ih (step apiBase s e) (fun tts hm => hevs tts (by simp [hm])) k1 k2 k3 k4 k5

theorem step_blocked_no_ended (apiBase : String) (s : SessionState) (e : Event)
    (he : e ≠ Event.welcomeEnded)
    (h2 : s.isStartButtonDisabled = true)
    (h3 : s.recorder = none) (h4 : s.activeRecorders = [])
    (h5 : s.pendingMics = []) :
    (step apiBase s e).isStartButtonDisabled = true
    ∧ (step apiBase s e).recorder = none
    ∧ (step apiBase s e).activeRecorders = []
    ∧ (step apiBase s e).pendingMics = [] := by
  cases e with
  | configOk tts => simp [step, h2, h3, h4, h5]
  | configFail => simp [step, h2, h3, h4, h5]
  | welcomePlay =>
      by_cases h : s.ttsService = "" <;> simp [step, h, h2, h3, h4, h5]
  | welcomePlayFail =>
      by_cases h : s.ttsService = "" <;> simp [step, h, h2, h3, h4, h5]
  | welcomeEnded => exact absurd rfl he
  | micsOk ids => cases ids <;> simp [step, h2, h3, h4, h5]
  | micsFail msg => simp [step, h2, h3, h4, h5]
  | clickButton mic => simp [step, h3, h2, h4, h5]
  | micResolved => simp [step, startRecordingResume, h5, h2, h3, h4]
  | uploadResult r => cases r <;> simp [step, sendAudioToBackend, h2, h3, h4, h5]
  | replyEnded => simp [step, h2, h3, h4, h5]

theorem foldl_blocked_no_ended (apiBase : String) (events : List Event) :
    ∀ s : SessionState, Event.welcomeEnded ∉ events →
      s.isStartButtonDisabled = true →
      s.recorder = none → s.activeRecorders = [] → s.pendingMics = [] →
      (events.foldl (step apiBase) s).isStartButtonDisabled = true
      ∧ (events.foldl (step apiBase) s).recorder = none
      ∧ (events.foldl (step apiBase) s).activeRecorders = []
      ∧ (events.foldl (step apiBase) s).pendingMics = [] := by
  induction events with
  | nil => intro s _ h2 h3 h4 h5; exact ⟨h2, h3, h4, h5⟩
  | cons e es ih =>
      intro s hevs h2 h3 h4 h5
      have he : e ≠ Event.welcomeEnded := by
        intro het; exact hevs (by simp [het])
      obtain ⟨k2, k3, k4, k5⟩ := step_blocked_no_ended apiBase s e he h2 h3 h4 h5
      exact ih (step apiBase s e) (fun hm => hevs (by simp [hm])) k2 k3 k4 k5

/-- C9: contrary to the claim, a failure around the welcome greeting
does permanently block recording.  If the TTS configuration never
arrives with a non-empty provider (the fetch failed), or welcome
playback never fires `onended` (the asset failed to play), then in
every reachable state the start-recording control is still disabled
(`isStartButtonDisabled` stays `true`, which disables the button while
`recorder` is `null`), no recorder ever becomes active, and the user
can never record: nothing but the welcome audio's `onended` callback
enables the control. -/
theorem claim9_start_stays_disabled (apiBase : String) (events : List Event)
    (h : (∀ tts, Event.configOk tts ∈ events → tts = "")
        ∨ Event.welcomeEnded ∉ events) :
    (run apiBase events).isStartButtonDisabled = true
    ∧ (run apiBase events).recorder = none
    ∧ (run apiBase events).activeRecorders = [] := by
  cases h with
  | inl hA =>
      obtain ⟨_, k2, k3, k4, _⟩ :=
        foldl_blocked_no_tts apiBase events initState hA rfl rfl rfl rfl rfl
      exact ⟨k2, k3, k4⟩
  | inr hB =>
      obtain ⟨k2, k3, k4, _⟩ :=
        foldl_blocked_no_ended apiBase events initState hB rfl rfl rfl rfl
      exact ⟨k2, k3, k4⟩

/-- C9 witness: after a failed configuration fetch, a play failure and
a click on Start, the control is still disabled and no recorder was
ever created. -/
theorem claim9_witness :
    Event.welcomeEnded ∉ [Event.configFail, Event.welcomePlay,
        Event.clickButton MicOutcome.granted, Event.welcomePlayFail]
    ∧ (run "http://api" [Event.configFail, Event.welcomePlay,
        Event.clickButton MicOutcome.granted, Event.welcomePlayFail]).isStartButtonDisabled = true
    ∧ (run "http://api" [Event.configFail, Event.welcomePlay,
        Event.clickButton MicOutcome.granted, Event.welcomePlayFail]).recorder = none
    ∧ (run "http://api" [Event.configFail, Event.welcomePlay,
        Event.clickButton MicOutcome.granted, Event.welcomePlayFail]).activeRecorders = [] := by
  refine ⟨by decide, ?_⟩
  exact claim9_start_stays_disabled "http://api" [Event.configFail, Event.welcomePlay,
    Event.clickButton MicOutcome.granted, Event.welcomePlayFail] (Or.inr (by decide))

end Mirai
